import Mathlib

/-!
Verification of the ecology multi-agent monitoring system.

This file shallowly embeds the analytics core of the repository:
the metric functions of `data_tools.py` (`calculate_aqi`,
`analyze_trend`, `detect_anomalies`), the measurement store operations
(`save_measurements`, `get_recent_measurements`), and the four agent
tasks (`DataCollectorAgent.execute`, `AnalyzerAgent.execute`,
`ForecasterAgent.execute`, `AlertAgentWorker.execute`).

Embedding conventions:
- Python floats are modelled as rationals (ℚ); `int(x)` is truncation
  toward zero (`pyInt`).
- Timestamps are integers counting hours (UTC); `datetime.utcnow()` is an
  explicit `now` parameter, `timedelta(hours=h)` is subtraction of `h`.
- The SQL store is a list of rows; `ORDER BY timestamp DESC` is an
  insertion sort by descending timestamp; the (location_name, timestamp)
  existence check of `save_measurements` is a scan of the list.
- `numpy.polyfit(range(n), y, 1)` and `sklearn.LinearRegression` on
  x = 0..n-1 are the exact ordinary-least-squares slope and intercept,
  written with explicit sums over `Finset.range`.
- `numpy.std` is avoided (it is a square root): the z-score comparison
  `|v - mean| / std > t` of `detect_anomalies` is embedded in the
  equivalent squared form `(v - mean)^2 > t^2 * variance`, exact for the
  nonnegative threshold the code uses.
- Python truthiness on optional floats (`if m.pm25:`, `m.pm25 or 0`,
  `if not m.pm25:`) treats both `None` and `0.0` as falsy; the embedding
  reproduces this with explicit `Option` matches and zero tests.
- The LLM narrative calls of the analyzer are external collaborators and
  are not modelled; the structured rows the analyzer computes and
  persists are.
-/

/-- Python `int(x)` applied to a float: truncation toward zero. -/
def pyInt (q : ℚ) : ℤ := if q < 0 then -⌊-q⌋ else ⌊q⌋

/-- `data_tools.calculate_aqi`: simplified AQI from PM2.5, a chain of
band tests with a linear formula per band, truncated to an integer. -/
def calculate_aqi (pm25 : ℚ) : ℤ :=
  if pm25 ≤ 12.0 then pyInt ((50 / 12.0) * pm25)
  else if pm25 ≤ 35.4 then pyInt (50 + ((100 - 50) / (35.4 - 12.1)) * (pm25 - 12.1))
  else if pm25 ≤ 55.4 then pyInt (100 + ((150 - 100) / (55.4 - 35.5)) * (pm25 - 35.5))
  else if pm25 ≤ 150.4 then pyInt (150 + ((200 - 150) / (150.4 - 55.5)) * (pm25 - 55.5))
  else if pm25 ≤ 250.4 then pyInt (200 + ((300 - 200) / (250.4 - 150.5)) * (pm25 - 150.5))
  else pyInt (300 + ((500 - 300) / (500.4 - 250.5)) * (pm25 - 250.5))

/-- One band of a breakpoint table: concentration range and AQI range. -/
structure AqiBand where
  loConc : ℚ
  hiConc : ℚ
  loAqi : ℚ
  hiAqi : ℚ
deriving DecidableEq, Repr

/-- The linear breakpoint-interpolation formula of one band, exactly as
the specification words it: loAqi + (hiAqi-loAqi)/(hiConc-loConc) * (pm25-loConc). -/
def bandValue (b : AqiBand) (pm25 : ℚ) : ℚ :=
  b.loAqi + (b.hiAqi - b.loAqi) / (b.hiConc - b.loConc) * (pm25 - b.loConc)

/-- Modelled from the spec: piecewise-linear breakpoint interpolation over
six bands with selection boundaries at PM2.5 = 12.0, 35.4, 55.4, 150.4,
250.4, each band applying `bandValue` and truncating.  This definition
follows the specification text and is compared against `calculate_aqi`. -/
def aqiInterp (pm25 : ℚ) : ℤ :=
  if pm25 ≤ 12.0 then pyInt (bandValue ⟨0, 12.0, 0, 50⟩ pm25)
  else if pm25 ≤ 35.4 then pyInt (bandValue ⟨12.1, 35.4, 50, 100⟩ pm25)
  else if pm25 ≤ 55.4 then pyInt (bandValue ⟨35.5, 55.4, 100, 150⟩ pm25)
  else if pm25 ≤ 150.4 then pyInt (bandValue ⟨55.5, 150.4, 150, 200⟩ pm25)
  else if pm25 ≤ 250.4 then pyInt (bandValue ⟨150.5, 250.4, 200, 300⟩ pm25)
  else pyInt (bandValue ⟨250.5, 500.4, 300, 500⟩ pm25)

/-- Sum of the regression abscissas 0..n-1. -/
def sumX (n : ℕ) : ℚ := ∑ i in Finset.range n, (i : ℚ)

/-- Sum of the squared regression abscissas. -/
def sumXX (n : ℕ) : ℚ := ∑ i in Finset.range n, (i : ℚ) ^ 2

/-- Sum of the series values. -/
def sumY (ys : List ℚ) : ℚ := ∑ i in Finset.range ys.length, ys.getD i 0

/-- Sum of index-times-value products of the series. -/
def sumXY (ys : List ℚ) : ℚ := ∑ i in Finset.range ys.length, (i : ℚ) * ys.getD i 0

/-- Ordinary least-squares slope of the series against indices 0..n-1,
the degree-one coefficient `numpy.polyfit(range(n), values, 1)[0]` and the
coefficient fitted by `sklearn.LinearRegression`. -/
def olsSlope (ys : List ℚ) : ℚ :=
  ((ys.length : ℚ) * sumXY ys - sumX ys.length * sumY ys) /
    ((ys.length : ℚ) * sumXX ys.length - sumX ys.length ^ 2)

/-- Ordinary least-squares intercept of the series against indices 0..n-1. -/
def olsIntercept (ys : List ℚ) : ℚ :=
  (sumY ys - olsSlope ys * sumX ys.length) / (ys.length : ℚ)

/-- Value of the fitted least-squares line at abscissa `t`
(`model.predict` of the forecaster at a future index). -/
def olsPredict (ys : List ℚ) (t : ℚ) : ℚ := olsIntercept ys + olsSlope ys * t

/-- `data_tools.analyze_trend`: classify the time-series trend by the
least-squares slope against thresholds 0.5 and -0.5. -/
def analyze_trend (values : List ℚ) : String :=
  if values.length < 2 then "insufficient_data"
  else
    let slope := olsSlope values
    if slope > 0.5 then "increasing"
    else if slope < -0.5 then "decreasing"
    else "stable"

/-- `data_tools.detect_anomalies`: z-score anomaly detection.  The code
compares `|v - mean| / std > threshold` with the population standard
deviation; the embedding uses the equivalent squared comparison. -/
def detect_anomalies (values : List ℚ) (threshold : ℚ) : List ℕ :=
  if values.length < 3 then []
  else
    let n : ℚ := values.length
    let mean := values.sum / n
    let variance := (values.map (fun v => (v - mean) ^ 2)).sum / n
    if variance = 0 then []
    else (List.range values.length).filter
      (fun i => decide (threshold ^ 2 * variance < (values.getD i 0 - mean) ^ 2))

/-- An arithmetic progression a, a+d, ..., a+(n-1)d as a list. -/
def arithSeq (a d : ℚ) (n : ℕ) : List ℚ :=
  (List.range n).map (fun (i : ℕ) => a + d * (i : ℚ))

/-- A row of the `measurements` table (`db/models.py`, class `Measurement`),
with timestamps in integer hours. -/
structure Measurement where
  location_name : String
  latitude : ℚ
  longitude : ℚ
  timestamp : ℤ
  pm25 : Option ℚ
  pm10 : Option ℚ
  no2 : Option ℚ
  o3 : Option ℚ
  co : Option ℚ
  temperature : Option ℚ
  humidity : Option ℚ
deriving DecidableEq, Repr

/-- Helper building a measurement carrying only a PM2.5 value. -/
def mkMeasurement (loc : String) (lat lon : ℚ) (ts : ℤ) (pm25 : Option ℚ) : Measurement :=
  ⟨loc, lat, lon, ts, pm25, none, none, none, none, none, none⟩

/-- Python `str.startswith`: prefix test on the character sequences. -/
def startswith (p s : String) : Bool := p.data.isPrefixOf s.data

/-- Insert one row into a list kept in descending-timestamp order. -/
def insertByTimestampDesc (m : Measurement) : List Measurement → List Measurement
  | [] => [m]
  | x :: xs =>
    if x.timestamp ≤ m.timestamp then m :: x :: xs else x :: insertByTimestampDesc m xs

/-- Sort rows by descending timestamp (SQL `ORDER BY timestamp DESC`). -/
def sortByTimestampDesc : List Measurement → List Measurement
  | [] => []
  | x :: xs => insertByTimestampDesc x (sortByTimestampDesc xs)

/-- The optional equality filter on `location_name` of
`get_recent_measurements`; Python applies it only when the argument is a
truthy (present and non-empty) string. -/
def matchesLocation (location_name : Option String) (m : Measurement) : Bool :=
  match location_name with
  | none => true
  | some l => if l = "" then true else m.location_name == l

/-- `data_tools.get_recent_measurements`: rows with
`timestamp >= now - hours`, optionally restricted to one location,
sorted by descending timestamp. -/
def get_recent_measurements (store : List Measurement) (now : ℤ) (hours : ℤ)
    (location_name : Option String) : List Measurement :=
  sortByTimestampDesc (store.filter
    (fun m => decide (now - hours ≤ m.timestamp) && matchesLocation location_name m))

/-- `data_tools.save_measurements`: insert a batch, skipping every item
whose (location_name, timestamp) pair already exists, and report how many
rows were inserted.  The existence check runs against the session, which
autoflushes rows added earlier in the same batch, so the accumulating
list is scanned. -/
def save_measurements (store : List Measurement) (data : List Measurement) :
    List Measurement × ℕ :=
  data.foldl
    (fun acc item =>
      if acc.1.any (fun ex =>
          ex.location_name == item.location_name && ex.timestamp == item.timestamp)
      then acc
      else (acc.1 ++ [item], acc.2 + 1))
    (store, 0)

/-- The message of the envelope each agent returns, one constructor per
format string of the source. -/
inductive AgentMessage where
  | collectedReport (saved : ℕ)
  | noDataAvailableForAnalysis
  | noDataForLocation (location_filter : String)
  | analysisCompleted
  | insufficientDataForForecast
  | forecastReport
  | noRecentDataToCheck
  | alertsCreated (count : ℕ)
  | allNormal
deriving DecidableEq, Repr

/-- A row of the `forecasts` table as built by `ForecasterAgent.execute`. -/
structure ForecastRow where
  location_name : String
  latitude : ℚ
  longitude : ℚ
  forecast_time : ℤ
  predicted_pm25 : ℚ
  predicted_pm10 : ℚ
  predicted_aqi : ℤ
  confidence : ℚ
deriving DecidableEq, Repr

/-- A structured analysis record as built by `AnalyzerAgent.execute`. -/
structure AnalysisResult where
  location : String
  pm25_trend : String
  pm25_anomalies_count : ℕ
  avg_pm25 : ℚ
  max_pm25 : ℚ
  min_pm25 : ℚ
  avg_temp : ℚ
deriving DecidableEq, Repr

/-- A row of the `alerts` table as built by `AlertAgentWorker.execute`. -/
structure AlertRow where
  location_name : String
  latitude : ℚ
  longitude : ℚ
  alert_type : String
  severity : String
  value : ℚ
  threshold : ℚ
  is_active : Bool
deriving DecidableEq, Repr

/-- `settings.AQI_THRESHOLDS["moderate"]`. -/
def AQI_THRESHOLD_moderate : ℤ := 100

/-- `settings.AQI_THRESHOLDS["unhealthy"]`. -/
def AQI_THRESHOLD_unhealthy : ℤ := 200

/-- Location keys of a Python dict grouped by first occurrence:
`locations_data` keys in insertion order. -/
def groupLocations (ms : List Measurement) : List String :=
  ms.foldl
    (fun acc m => if acc.contains m.location_name then acc else acc ++ [m.location_name])
    []

/-- First row of a given location, providing the latitude/longitude the
grouping dictionaries record when the location key is created. -/
def firstFor (ms : List Measurement) (loc : String) : Option Measurement :=
  ms.find? (fun m => m.location_name == loc)

/-- The PM2.5 series the forecaster builds for one location:
`m.pm25 or 0` appended for every row of the location, in list order. -/
def pm25Series (ms : List Measurement) (loc : String) : List ℚ :=
  (ms.filter (fun m => m.location_name == loc)).map (fun m => m.pm25.getD 0)

/-- `numpy.clip(x, 0, 500)`. -/
def clip500 (v : ℚ) : ℚ := min (max v 0) 500

/-- The forecaster's predicted PM2.5 for one series: the least-squares
line extrapolated to index n+23 (`predictions[-1]` of the 24 future
steps), clipped to [0, 500]. -/
def predictedPm25 (series : List ℚ) : ℚ :=
  clip500 (olsPredict series ((series.length : ℚ) + 23))

/-- `ForecasterAgent.execute`: over the trailing 48-hour window, group by
location, skip locations with fewer than 5 points, fit and extrapolate,
and persist one forecast per qualifying location.  Short-circuits when
the window holds fewer than 10 rows in total. -/
def forecaster_execute (store : List Measurement) (now : ℤ) :
    AgentMessage × List ForecastRow :=
  let measurements := get_recent_measurements store now 48 none
  if measurements.length < 10 then (AgentMessage.insufficientDataForForecast, [])
  else
    let rows := (groupLocations measurements).filterMap (fun loc =>
      let series := pm25Series measurements loc
      if series.length < 5 then none
      else
        let pred := predictedPm25 series
        some { location_name := loc
               latitude := ((firstFor measurements loc).map (fun m => m.latitude)).getD 0
               longitude := ((firstFor measurements loc).map (fun m => m.longitude)).getD 0
               forecast_time := now + 24
               predicted_pm25 := pred
               predicted_pm10 := pred * 1.5
               predicted_aqi := calculate_aqi pred
               confidence := 0.75 })
    (AgentMessage.forecastReport, rows)

/-- Optional values kept by Python truthiness (`if v:`): present and
nonzero. -/
def truthyValues (vals : List (Option ℚ)) : List ℚ :=
  vals.filterMap (fun v =>
    match v with
    | none => none
    | some x => if x = 0 then none else some x)

/-- The PM2.5 series the analyzer collects for one location
(`if m.pm25: append`). -/
def analyzerPm25 (ms : List Measurement) (loc : String) : List ℚ :=
  truthyValues ((ms.filter (fun m => m.location_name == loc)).map (fun m => m.pm25))

/-- The temperature series the analyzer collects for one location. -/
def analyzerTemp (ms : List Measurement) (loc : String) : List ℚ :=
  truthyValues ((ms.filter (fun m => m.location_name == loc)).map (fun m => m.temperature))

/-- The per-location record of `AnalyzerAgent.execute`: trend, anomaly
count, mean/max/min PM2.5 and mean temperature over the window. -/
def analysisFor (ms : List Measurement) (loc : String) : AnalysisResult :=
  let pm25 := analyzerPm25 ms loc
  let temp := analyzerTemp ms loc
  { location := loc
    pm25_trend := if pm25 ≠ [] then analyze_trend pm25 else "no_data"
    pm25_anomalies_count := (if pm25.length > 3 then detect_anomalies pm25 2 else []).length
    avg_pm25 := if pm25 ≠ [] then pm25.sum / (pm25.length : ℚ) else 0
    max_pm25 := pm25.max?.getD 0
    min_pm25 := pm25.min?.getD 0
    avg_temp := if temp ≠ [] then temp.sum / (temp.length : ℚ) else 0 }

/-- The analyzer's location filter (`analyzer.py` lines 48-52): applied
only when the filter is a truthy string different from the sentinel
"Все города", and keeping rows whose location name starts with it. -/
def applyLocationFilter (location_filter : Option String) (ms : List Measurement) :
    List Measurement :=
  match location_filter with
  | none => ms
  | some f =>
    if f = "" || f = "Все города" then ms
    else ms.filter (fun m => startswith f m.location_name)

/-- `AnalyzerAgent.execute`: trailing 168-hour window, optional location
filter, one structured analysis row per location.  The narrative LLM
calls are external and not part of the structured result. -/
def analyzer_execute (store : List Measurement) (now : ℤ)
    (location_filter : Option String) : AgentMessage × List AnalysisResult :=
  let ms0 := get_recent_measurements store now 168 none
  if ms0.isEmpty then (AgentMessage.noDataAvailableForAnalysis, [])
  else
    let ms := applyLocationFilter location_filter ms0
    if ms.isEmpty then (AgentMessage.noDataForLocation (location_filter.getD ""), [])
    else (AgentMessage.analysisCompleted, (groupLocations ms).map (analysisFor ms))

/-- The alert decision for one measurement (`alert_agent.py` loop body):
skip falsy PM2.5, compute the AQI, and raise an alert above the moderate
threshold, escalating above the unhealthy threshold. -/
def alertForMeasurement (m : Measurement) : Option AlertRow :=
  match m.pm25 with
  | none => none
  | some p =>
    if p = 0 then none
    else
      let aqi := calculate_aqi p
      if aqi > AQI_THRESHOLD_moderate then
        some { location_name := m.location_name
               latitude := m.latitude
               longitude := m.longitude
               alert_type := "high_aqi"
               severity := if aqi > AQI_THRESHOLD_unhealthy then "danger" else "warning"
               value := p
               threshold := (AQI_THRESHOLD_moderate : ℚ)
               is_active := true }
      else none

/-- `AlertAgentWorker.execute`: check the trailing one-hour window and
create one alert per qualifying measurement. -/
def alert_execute (store : List Measurement) (now : ℤ) :
    AgentMessage × List AlertRow :=
  let measurements := get_recent_measurements store now 1 none
  if measurements.isEmpty then (AgentMessage.noRecentDataToCheck, [])
  else
    let alerts := measurements.filterMap alertForMeasurement
    (if alerts.isEmpty then AgentMessage.allNormal else AgentMessage.alertsCreated alerts.length,
     alerts)

/-- `DataCollectorAgent.execute` after the external API fetches: persist
the collected batch through `save_measurements` (skipped when nothing was
collected) and report the saved count.  Returns the message, the new
store, and the saved count. -/
def collector_execute (store : List Measurement) (collected_data : List Measurement) :
    AgentMessage × List Measurement × ℕ :=
  let result := if collected_data.isEmpty then (store, 0) else save_measurements store collected_data
  (AgentMessage.collectedReport result.2, result.1, result.2)

/-- The scenario store of the specification: 20 hourly PM2.5 readings for
"Station-A", strictly increasing by 2 µg/m³ per hour, listed
chronologically (timestamps -19..0, values 10..48). -/
def stationA_store : List Measurement :=
  [mkMeasurement "Station-A" 55 37 (-19) (some 10),
   mkMeasurement "Station-A" 55 37 (-18) (some 12),
   mkMeasurement "Station-A" 55 37 (-17) (some 14),
   mkMeasurement "Station-A" 55 37 (-16) (some 16),
   mkMeasurement "Station-A" 55 37 (-15) (some 18),
   mkMeasurement "Station-A" 55 37 (-14) (some 20),
   mkMeasurement "Station-A" 55 37 (-13) (some 22),
   mkMeasurement "Station-A" 55 37 (-12) (some 24),
   mkMeasurement "Station-A" 55 37 (-11) (some 26),
   mkMeasurement "Station-A" 55 37 (-10) (some 28),
   mkMeasurement "Station-A" 55 37 (-9) (some 30),
   mkMeasurement "Station-A" 55 37 (-8) (some 32),
   mkMeasurement "Station-A" 55 37 (-7) (some 34),
   mkMeasurement "Station-A" 55 37 (-6) (some 36),
   mkMeasurement "Station-A" 55 37 (-5) (some 38),
   mkMeasurement "Station-A" 55 37 (-4) (some 40),
   mkMeasurement "Station-A" 55 37 (-3) (some 42),
   mkMeasurement "Station-A" 55 37 (-2) (some 44),
   mkMeasurement "Station-A" 55 37 (-1) (some 46),
   mkMeasurement "Station-A" 55 37 0 (some 48)]

/-- The same 20 readings in the descending-timestamp order in which the
store query returns them. -/
def stationA_window : List Measurement :=
  [mkMeasurement "Station-A" 55 37 0 (some 48),
   mkMeasurement "Station-A" 55 37 (-1) (some 46),
   mkMeasurement "Station-A" 55 37 (-2) (some 44),
   mkMeasurement "Station-A" 55 37 (-3) (some 42),
   mkMeasurement "Station-A" 55 37 (-4) (some 40),
   mkMeasurement "Station-A" 55 37 (-5) (some 38),
   mkMeasurement "Station-A" 55 37 (-6) (some 36),
   mkMeasurement "Station-A" 55 37 (-7) (some 34),
   mkMeasurement "Station-A" 55 37 (-8) (some 32),
   mkMeasurement "Station-A" 55 37 (-9) (some 30),
   mkMeasurement "Station-A" 55 37 (-10) (some 28),
   mkMeasurement "Station-A" 55 37 (-11) (some 26),
   mkMeasurement "Station-A" 55 37 (-12) (some 24),
   mkMeasurement "Station-A" 55 37 (-13) (some 22),
   mkMeasurement "Station-A" 55 37 (-14) (some 20),
   mkMeasurement "Station-A" 55 37 (-15) (some 18),
   mkMeasurement "Station-A" 55 37 (-16) (some 16),
   mkMeasurement "Station-A" 55 37 (-17) (some 14),
   mkMeasurement "Station-A" 55 37 (-18) (some 12),
   mkMeasurement "Station-A" 55 37 (-19) (some 10)]

/-- The PM2.5 series the engines build from the window above, in the
order the query delivers it: newest first. -/
def stationA_series : List ℚ :=
  [48, 46, 44, 42, 40, 38, 36, 34, 32, 30, 28, 26, 24, 22, 20, 18, 16, 14, 12, 10]

/-- A single reading at "Station-A", used for the filter scenarios. -/
def stationA1 : Measurement := mkMeasurement "Station-A" 55 37 0 (some 10)

/-- The scenario reading of the alert check: PM2.5 = 150 at "Station-B"
in the trailing hour. -/
def stationB : Measurement := mkMeasurement "Station-B" 0 0 0 (some 150)

/-- Five readings at one location, none carrying a PM2.5 value. -/
def nullStation : List Measurement :=
  [mkMeasurement "Station-N" 1 2 0 none,
   mkMeasurement "Station-N" 1 2 (-1) none,
   mkMeasurement "Station-N" 1 2 (-2) none,
   mkMeasurement "Station-N" 1 2 (-3) none,
   mkMeasurement "Station-N" 1 2 (-4) none]

theorem sumY_nil : sumY [] = 0 := rfl

theorem sumY_cons (a : ℚ) (l : List ℚ) : sumY (a :: l) = a + sumY l := by
  simp only [sumY, List.length_cons, Finset.sum_range_succ']
  simp [add_comm]

theorem sumXY_nil : sumXY [] = 0 := rfl

theorem sumXY_cons (a : ℚ) (l : List ℚ) : sumXY (a :: l) = sumY l + sumXY l := by
  simp only [sumXY, List.length_cons, Finset.sum_range_succ']
  push_cast
  simp [add_mul, Finset.sum_add_distrib, sumY, sumXY, add_comm]

theorem sumX_succ (n : ℕ) : sumX (n + 1) = sumX n + n := by
  simp [sumX, Finset.sum_range_succ]

theorem sumXX_succ (n : ℕ) : sumXX (n + 1) = sumXX n + (n : ℚ) ^ 2 := by
  simp [sumXX, Finset.sum_range_succ]

theorem two_sumX (n : ℕ) : 2 * sumX n = (n : ℚ) ^ 2 - n := by
  induction n with
  | zero => simp [sumX]
  | succ m ih =>
    rw [sumX_succ]
    push_cast
    push_cast at ih
    ring_nf
    ring_nf at ih
    linarith

theorem six_sumXX (n : ℕ) : 6 * sumXX n = 2 * (n : ℚ) ^ 3 - 3 * (n : ℚ) ^ 2 + n := by
  induction n with
  | zero => simp [sumXX]
  | succ m ih =>
    rw [sumXX_succ]
    push_cast
    push_cast at ih
    ring_nf
    ring_nf at ih
    linarith

theorem regressionDenom_pos (n : ℕ) (hn : 2 ≤ n) :
    0 < (n : ℚ) * sumXX n - sumX n ^ 2 := by
  have h1 := two_sumX n
  have h2 := six_sumXX n
  have hcast : (2 : ℚ) ≤ n := by exact_mod_cast hn
  nlinarith [sq_nonneg ((n : ℚ) - 1), sq_nonneg (n : ℚ)]

theorem length_arithSeq (a d : ℚ) (n : ℕ) : (arithSeq a d n).length = n := by
  rw [arithSeq, List.length_map, List.length_range]

theorem getD_arithSeq (a d : ℚ) {n i : ℕ} (hi : i < n) :
    (arithSeq a d n).getD i 0 = a + d * i := by
  unfold arithSeq
  rw [List.getD_eq_getElem?_getD, List.getElem?_map, List.getElem?_range hi]
  rfl

theorem sumY_arithSeq (a d : ℚ) (n : ℕ) :
    sumY (arithSeq a d n) = n * a + d * sumX n := by
  unfold sumY
  rw [length_arithSeq]
  rw [show (∑ i in Finset.range n, (arithSeq a d n).getD i 0) =
        ∑ i in Finset.range n, (a + d * i) from
      Finset.sum_congr rfl fun i hi => getD_arithSeq a d (Finset.mem_range.mp hi)]
  rw [Finset.sum_add_distrib, Finset.sum_const, Finset.card_range, nsmul_eq_mul,
    ← Finset.mul_sum]
  rfl

theorem sumXY_arithSeq (a d : ℚ) (n : ℕ) :
    sumXY (arithSeq a d n) = a * sumX n + d * sumXX n := by
  unfold sumXY
  rw [length_arithSeq]
  rw [show (∑ i in Finset.range n, (i : ℚ) * (arithSeq a d n).getD i 0) =
        ∑ i in Finset.range n, (a * i + d * (i : ℚ) ^ 2) from
      Finset.sum_congr rfl fun i hi => by rw [getD_arithSeq a d (Finset.mem_range.mp hi)]; ring]
  rw [Finset.sum_add_distrib, ← Finset.mul_sum, ← Finset.mul_sum]
  rfl

theorem olsSlope_arithSeq (a d : ℚ) (n : ℕ) (hn : 2 ≤ n) :
    olsSlope (arithSeq a d n) = d := by
  have hD := regressionDenom_pos n hn
  unfold olsSlope
  rw [length_arithSeq, sumY_arithSeq, sumXY_arithSeq]
  rw [div_eq_iff hD.ne']
  ring

theorem clip500_nonneg (v : ℚ) : 0 ≤ clip500 v :=
  le_min (le_max_right v 0) (by norm_num)

theorem clip500_le_500 (v : ℚ) : clip500 v ≤ 500 := min_le_right _ _

theorem sumY_eq_zero (ys : List ℚ) (h : ∀ y ∈ ys, y = 0) : sumY ys = 0 := by
  unfold sumY
  refine Finset.sum_eq_zero fun i _ => ?_
  rcases lt_or_ge i ys.length with hlt | hge
  · rw [List.getD_eq_getElem ys 0 hlt]
    exact h _ (List.getElem_mem hlt)
  · rw [List.getD_eq_default ys 0 hge]

theorem sumXY_eq_zero (ys : List ℚ) (h : ∀ y ∈ ys, y = 0) : sumXY ys = 0 := by
  unfold sumXY
  refine Finset.sum_eq_zero fun i _ => ?_
  rcases lt_or_ge i ys.length with hlt | hge
  · rw [List.getD_eq_getElem ys 0 hlt, h _ (List.getElem_mem hlt), mul_zero]
  · rw [List.getD_eq_default ys 0 hge, mul_zero]

theorem predictedPm25_of_zero_series (ys : List ℚ) (h : ∀ y ∈ ys, y = 0) :
    predictedPm25 ys = 0 := by
  have h1 := sumY_eq_zero ys h
  have h2 := sumXY_eq_zero ys h
  have hslope : olsSlope ys = 0 := by
    unfold olsSlope
    rw [h1, h2]
    simp
  have hint : olsIntercept ys = 0 := by
    unfold olsIntercept
    rw [h1, hslope]
    simp
  unfold predictedPm25 olsPredict
  rw [hint, hslope]
  norm_num [clip500]

theorem startswith_iff (p s : String) : startswith p s = true ↔ ∃ t, s = p ++ t := by
  constructor
  · intro h
    have h2 : p.data <+: s.data := by
      simpa [startswith, List.isPrefixOf_iff_prefix] using h
    obtain ⟨t, ht⟩ := h2
    refine ⟨⟨t⟩, ?_⟩
    cases s with
    | mk d =>
      cases p with
      | mk d2 => simp_all [String.ext_iff]
  · rintro ⟨t, rfl⟩
    have hd : (p ++ t).data = p.data ++ t.data := rfl
    simp [startswith, List.isPrefixOf_iff_prefix, hd]

/-- C3: `calculate_aqi` is piecewise-linear breakpoint interpolation over
six bands selected at the boundaries 12.0, 35.4, 55.4, 150.4, 250.4,
each band computing loAqi + (hiAqi-loAqi)/(hiConc-loConc) * (pm25-loConc)
truncated (not rounded) to an integer, and at the boundaries
aqi(12.0) = 50 and aqi(35.4) = 100 exactly. -/
theorem c3_aqi_breakpoint_interpolation :
    (∀ pm25 : ℚ, calculate_aqi pm25 = aqiInterp pm25) ∧
    calculate_aqi 12.0 = 50 ∧ calculate_aqi 35.4 = 100 := by
  refine ⟨fun q => ?_, by norm_num [calculate_aqi, pyInt],
    by norm_num [calculate_aqi, pyInt]⟩
  unfold calculate_aqi aqiInterp
  split_ifs
  all_goals congr 1
  all_goals dsimp only [bandValue]
  all_goals ring

/-- C4 counterexample: the claim says every negative PM2.5 input is
treated as 0, but the code has no guard: at pm25 = -12 it returns -50. -/
theorem c4_negative_input_counterexample :
    calculate_aqi (-12) = -50 ∧ calculate_aqi (-12) ≠ 0 := by
  norm_num [calculate_aqi, pyInt]

/-- C4 amended: a negative input is not guarded against; it falls into
the first band, so the function returns the truncation of
(50/12.0) * pm25, a nonpositive value (and a strictly negative one as
soon as that product reaches -1, e.g. at pm25 = -12). -/
theorem c4_negative_input_amended :
    ∀ q : ℚ, q < 0 → calculate_aqi q = pyInt ((50 / 12.0) * q) ∧ calculate_aqi q ≤ 0 := by
  intro q hq
  have h12 : q ≤ 12.0 := le_trans hq.le (by norm_num)
  have heq : calculate_aqi q = pyInt ((50 / 12.0) * q) := by
    simp [calculate_aqi, h12]
  refine ⟨heq, ?_⟩
  rw [heq]
  have hneg : (50 / 12.0 : ℚ) * q < 0 := mul_neg_of_pos_of_neg (by norm_num) hq
  unfold pyInt
  rw [if_pos hneg]
  have h0 : (0 : ℚ) ≤ -((50 / 12.0 : ℚ) * q) := by linarith
  have hfl : 0 ≤ ⌊-((50 / 12.0 : ℚ) * q)⌋ := Int.floor_nonneg.mpr h0
  omega

/-- C4 witness: the amended statement applied at pm25 = -12. -/
theorem c4_negative_input_amended_witness :
    (-12 : ℚ) < 0 ∧
      (calculate_aqi (-12) = pyInt ((50 / 12.0) * (-12)) ∧ calculate_aqi (-12) ≤ 0) :=
  ⟨by norm_num, c4_negative_input_amended (-12) (by norm_num)⟩

/-- C5 counterexample: the claim's sentinel "all" does not bypass the
analyzer's location filter; it is treated as an ordinary prefix, so with
a store holding only "Station-A" the filter empties the window, while the
actual sentinel "Все города" keeps it. -/
theorem c5_all_sentinel_counterexample :
    applyLocationFilter (some "all") [stationA1] = [] ∧
    applyLocationFilter (some "Все города") [stationA1] = [stationA1] := by
  constructor <;> decide

/-- C5 amended: the location filter keeps exactly the readings whose
location name starts with the caller-supplied string (case-sensitive
prefix match, where starting with f means being f followed by some
suffix), but the bypass sentinel is the exact string "Все города" — or an
absent or empty filter — not "all". -/
theorem c5_location_filter_amended :
    (∀ (f : String) (ms : List Measurement), f ≠ "" → f ≠ "Все города" →
      applyLocationFilter (some f) ms =
        ms.filter (fun m => startswith f m.location_name)) ∧
    (∀ ms : List Measurement,
      applyLocationFilter (some "Все города") ms = ms ∧
      applyLocationFilter none ms = ms ∧
      applyLocationFilter (some "") ms = ms) ∧
    (∀ p s : String, startswith p s = true ↔ ∃ t, s = p ++ t) := by
  refine ⟨?_, ?_, startswith_iff⟩
  · intro f ms hf1 hf2
    simp [applyLocationFilter, hf1, hf2]
  · intro ms
    exact ⟨by simp [applyLocationFilter], rfl, by simp [applyLocationFilter]⟩

/-- C5 witness: the amended filter semantics applied to the one-reading
store at "Station-A" with the prefix "Station" and with the sentinel. -/
theorem c5_location_filter_amended_witness :
    ("Station" ≠ "") ∧ ("Station" ≠ "Все города") ∧
    applyLocationFilter (some "Station") [stationA1] =
      [stationA1].filter (fun m => startswith "Station" m.location_name) ∧
    applyLocationFilter (some "Все города") [stationA1] = [stationA1] :=
  ⟨by decide, by decide,
   c5_location_filter_amended.1 "Station" [stationA1] (by decide) (by decide),
   (c5_location_filter_amended.2.1 [stationA1]).1⟩

/-- C6 counterexample: on an empty store the collect task does not return
a no-data envelope and does write: given a fetched batch of one reading
it persists that reading and reports a collected count. -/
theorem c6_collector_counterexample :
    (collector_execute [] [stationB]).2.1 = [stationB] ∧
    (collector_execute [] [stationB]).1 = AgentMessage.collectedReport 1 := by
  constructor <;> rfl

/-- C6 amended: on an empty store the analyze, forecast and alert-check
tasks return their no-data or insufficient-data envelopes and persist
nothing; the collect task is independent of the store contents — it
persists the deduplicated fetched batch and reports the saved count
(a "Collected N measurements" message, even when N = 0). -/
theorem c6_empty_store_amended :
    ∀ (now : ℤ) (location_filter : Option String) (fetched : List Measurement),
      analyzer_execute [] now location_filter = (AgentMessage.noDataAvailableForAnalysis, []) ∧
      forecaster_execute [] now = (AgentMessage.insufficientDataForForecast, []) ∧
      alert_execute [] now = (AgentMessage.noRecentDataToCheck, []) ∧
      collector_execute [] fetched =
        (AgentMessage.collectedReport (save_measurements [] fetched).2,
         (save_measurements [] fetched).1, (save_measurements [] fetched).2) := by
  intro now location_filter fetched
  refine ⟨rfl, rfl, rfl, ?_⟩
  cases fetched with
  | nil => rfl
  | cons a l => rfl

/-- C7: inserting a reading whose (location_name, timestamp) pair is not
yet in the store adds it and counts 1; re-inserting the same reading is a
no-op counted 0, and exactly one row with that pair remains. -/
theorem c7_insert_dedup_idempotent :
    ∀ (store : List Measurement) (m : Measurement),
      (∀ ex ∈ store, ¬(ex.location_name = m.location_name ∧ ex.timestamp = m.timestamp)) →
      save_measurements store [m] = (store ++ [m], 1) ∧
      save_measurements (store ++ [m]) [m] = (store ++ [m], 0) ∧
      (store ++ [m]).countP
        (fun ex => ex.location_name == m.location_name && ex.timestamp == m.timestamp) = 1 := by
  intro store m h
  have hany : store.any
      (fun ex => ex.location_name == m.location_name && ex.timestamp == m.timestamp) = false := by
    rw [List.any_eq_false]
    intro x hx
    have := h x hx
    simp only [Bool.and_eq_true, beq_iff_eq]
    tauto
  have hany2 : (store ++ [m]).any
      (fun ex => ex.location_name == m.location_name && ex.timestamp == m.timestamp) = true := by
    rw [List.any_append]
    simp
  refine ⟨?_, ?_, ?_⟩
  · simp [save_measurements, hany]
    intro x hx h1 h2
    exact h x hx ⟨h1, h2⟩
  · simp [save_measurements, hany2]
    exact ⟨m, Or.inr rfl, rfl, rfl⟩
  · rw [List.countP_append]
    have h0 : store.countP
        (fun ex => ex.location_name == m.location_name && ex.timestamp == m.timestamp) = 0 := by
      rw [List.countP_eq_zero]
      intro x hx
      have := h x hx
      simp only [Bool.and_eq_true, beq_iff_eq]
      tauto
    simp [h0, List.countP_cons]

/-- C7 witness: the dedup property applied to the empty store and the
"Station-B" reading. -/
theorem c7_insert_dedup_idempotent_witness :
    save_measurements [] [stationB] = ([stationB], 1) ∧
    save_measurements [stationB] [stationB] = ([stationB], 0) := by
  have h : ∀ ex ∈ ([] : List Measurement),
      ¬(ex.location_name = stationB.location_name ∧ ex.timestamp = stationB.timestamp) := by
    simp
  have hc := c7_insert_dedup_idempotent [] stationB h
  exact ⟨by simpa using hc.1, by simpa using hc.2.1⟩

/-- C8: every forecast row the forecast task produces carries a predicted
PM2.5 inside [0, 500], because the extrapolated value is clipped before
use. -/
theorem c8_forecast_clipped_range :
    ∀ (store : List Measurement) (now : ℤ),
      ((forecaster_execute store now).2).all
        (fun r => decide (0 ≤ r.predicted_pm25) && decide (r.predicted_pm25 ≤ 500)) = true := by
  intro store now
  unfold forecaster_execute
  by_cases hlen : (get_recent_measurements store now 48 none).length < 10
  · simp [hlen]
  · simp only [hlen, if_false]
    rw [List.all_eq_true]
    intro r hr
    rw [List.mem_filterMap] at hr
    obtain ⟨loc, _, hsome⟩ := hr
    by_cases h5 : (pm25Series (get_recent_measurements store now 48 none) loc).length < 5
    · rw [if_pos h5] at hsome
      exact absurd hsome (by simp)
    · rw [if_neg h5] at hsome
      have hr2 : r.predicted_pm25 =
          predictedPm25 (pm25Series (get_recent_measurements store now 48 none) loc) := by
        cases hsome
        rfl
      rw [Bool.and_eq_true, decide_eq_true_eq, decide_eq_true_eq, hr2]
      unfold predictedPm25
      exact ⟨clip500_nonneg _, clip500_le_500 _⟩

/-- C9: the trend classifier returns "insufficient_data" below 2 points;
otherwise it classifies by the least-squares slope against indices
0..n-1, increasing above 0.5, decreasing below -0.5, stable in between;
and every arithmetic sequence with common difference 1.0 of length at
least 2 is classified "increasing". -/
theorem c9_trend_classification :
    (∀ values : List ℚ, values.length < 2 → analyze_trend values = "insufficient_data") ∧
    (∀ values : List ℚ, 2 ≤ values.length →
      (analyze_trend values = "increasing" ↔ olsSlope values > 0.5) ∧
      (analyze_trend values = "decreasing" ↔ olsSlope values < -0.5) ∧
      (analyze_trend values = "stable" ↔
        ¬olsSlope values > 0.5 ∧ ¬olsSlope values < -0.5)) ∧
    (∀ (a : ℚ) (n : ℕ), 2 ≤ n → analyze_trend (arithSeq a 1 n) = "increasing") := by
  refine ⟨?_, ?_, ?_⟩
  · intro vs h
    simp [analyze_trend, h]
  · intro vs h
    have hlen : ¬vs.length < 2 := not_lt.mpr h
    have hform : analyze_trend vs =
        if olsSlope vs > 0.5 then "increasing"
        else if olsSlope vs < -0.5 then "decreasing" else "stable" := by
      unfold analyze_trend
      rw [if_neg hlen]
    rw [hform]
    split_ifs with h1 h2
    · exact ⟨iff_of_true rfl h1,
        iff_of_false (by decide) (by intro hc; linarith),
        iff_of_false (by decide) (fun hc => hc.1 h1)⟩
    · exact ⟨iff_of_false (by decide) h1,
        iff_of_true rfl h2,
        iff_of_false (by decide) (fun hc => hc.2 h2)⟩
    · exact ⟨iff_of_false (by decide) h1,
        iff_of_false (by decide) h2,
        iff_of_true rfl ⟨h1, h2⟩⟩
  · intro a n hn
    have hs : olsSlope (arithSeq a 1 n) = 1 := olsSlope_arithSeq a 1 n hn
    have hlen : ¬(arithSeq a 1 n).length < 2 := by
      rw [length_arithSeq]
      exact not_lt.mpr hn
    simp only [analyze_trend, if_neg hlen, hs]
    norm_num

/-- C9 witness: the classifier applied at concrete inputs — a singleton
series, the arithmetic sequence 0,1,2, and a constant two-point series. -/
theorem c9_trend_classification_witness :
    analyze_trend [(5 : ℚ)] = "insufficient_data" ∧
    analyze_trend (arithSeq 0 1 3) = "increasing" ∧
    (analyze_trend [(0 : ℚ), 0] = "stable" ↔
      ¬olsSlope [(0 : ℚ), 0] > 0.5 ∧ ¬olsSlope [(0 : ℚ), 0] < -0.5) :=
  ⟨c9_trend_classification.1 [5] (by norm_num),
   c9_trend_classification.2.2 0 3 (by norm_num),
   (c9_trend_classification.2.1 [0, 0] (by norm_num)).2.2⟩

/-- C10: measurements without a PM2.5 value enter the forecaster's series
as 0 and count toward the 5-point minimum, so a location all of whose
window measurements lack PM2.5 still qualifies (given at least 5 of them)
and its all-zero series forecasts a predicted PM2.5 of 0. -/
theorem c10_null_pm25_as_zero :
    ∀ (ms : List Measurement) (loc : String),
      (∀ m ∈ ms, m.location_name = loc → m.pm25 = none) →
      5 ≤ (ms.filter (fun m => m.location_name == loc)).length →
      (pm25Series ms loc).length = (ms.filter (fun m => m.location_name == loc)).length ∧
      ¬(pm25Series ms loc).length < 5 ∧
      predictedPm25 (pm25Series ms loc) = 0 := by
  intro ms loc hnone h5
  have hlen : (pm25Series ms loc).length =
      (ms.filter (fun m => m.location_name == loc)).length := by
    simp [pm25Series]
  refine ⟨hlen, ?_, ?_⟩
  · rw [hlen]
    exact not_lt.mpr h5
  · refine predictedPm25_of_zero_series _ ?_
    intro y hy
    rw [pm25Series, List.mem_map] at hy
    obtain ⟨m, hm, rfl⟩ := hy
    rw [List.mem_filter] at hm
    have hl : m.location_name = loc := by simpa using hm.2
    rw [hnone m hm.1 hl]
    rfl

/-- C10 witness: the property applied to five readings at "Station-N",
none of which carries a PM2.5 value. -/
theorem c10_null_pm25_as_zero_witness :
    (∀ m ∈ nullStation, m.location_name = "Station-N" → m.pm25 = none) ∧
    5 ≤ (nullStation.filter (fun m => m.location_name == "Station-N")).length ∧
    predictedPm25 (pm25Series nullStation "Station-N") = 0 := by
  have h1 : ∀ m ∈ nullStation, m.location_name = "Station-N" → m.pm25 = none := by decide
  have h2 : 5 ≤ (nullStation.filter (fun m => m.location_name == "Station-N")).length := by
    decide
  exact ⟨h1, h2, (c10_null_pm25_as_zero nullStation "Station-N" h1 h2).2.2⟩

/-- C2 counterexample: for the single trailing-hour reading with
PM2.5 = 150 the computed AQI is 199, which does not exceed the unhealthy
threshold 200, so the one alert created carries severity "warning" — not
the "danger" the claim asserts. -/
theorem c2_pm25_150_yields_warning :
    (alert_execute [stationB] 0).2.map (fun r => r.severity) = ["warning"] ∧
    calculate_aqi 150 = 199 ∧ ("warning" : String) ≠ "danger" := by
  refine ⟨?_, by norm_num [calculate_aqi, pyInt], by decide⟩
  have hwin : get_recent_measurements [stationB] 0 1 none = [stationB] := by decide
  have halert : alertForMeasurement stationB = some
      { location_name := "Station-B", latitude := 0, longitude := 0,
        alert_type := "high_aqi", severity := "warning", value := 150,
        threshold := 100, is_active := true } := by
    have haqi : calculate_aqi 150 = 199 := by norm_num [calculate_aqi, pyInt]
    simp [alertForMeasurement, stationB, mkMeasurement, haqi,
      AQI_THRESHOLD_moderate, AQI_THRESHOLD_unhealthy]
  simp [alert_execute, hwin, halert]

/-- C2 amended: the scenario reading with PM2.5 = 150 yields exactly one
alert of type "high_aqi" for "Station-B" with severity "warning" (its AQI
is 199, above the moderate threshold 100 but not above the unhealthy
threshold 200); in general a reading whose AQI exceeds 100 yields an
alert whose severity is "danger" exactly when the AQI also exceeds 200
and "warning" otherwise, and a reading whose AQI does not exceed 100
yields none. -/
theorem c2_alert_thresholds_amended :
    ((alert_execute [stationB] 0).1 = AgentMessage.alertsCreated 1 ∧
     (alert_execute [stationB] 0).2.map (fun r => (r.location_name, r.alert_type, r.severity)) =
       [("Station-B", "high_aqi", "warning")]) ∧
    (∀ (m : Measurement) (p : ℚ), m.pm25 = some p → p ≠ 0 →
      calculate_aqi p > AQI_THRESHOLD_moderate →
      alertForMeasurement m = some
        { location_name := m.location_name, latitude := m.latitude,
          longitude := m.longitude, alert_type := "high_aqi",
          severity := if calculate_aqi p > AQI_THRESHOLD_unhealthy then "danger" else "warning",
          value := p, threshold := (AQI_THRESHOLD_moderate : ℚ), is_active := true }) ∧
    (∀ (m : Measurement) (p : ℚ), m.pm25 = some p → p ≠ 0 →
      calculate_aqi p ≤ AQI_THRESHOLD_moderate → alertForMeasurement m = none) := by
  refine ⟨⟨?_, ?_⟩, ?_, ?_⟩
  · have hwin : get_recent_measurements [stationB] 0 1 none = [stationB] := by decide
    have haqi : calculate_aqi 150 = 199 := by norm_num [calculate_aqi, pyInt]
    have halert : alertForMeasurement stationB = some
        { location_name := "Station-B", latitude := 0, longitude := 0,
          alert_type := "high_aqi", severity := "warning", value := 150,
          threshold := 100, is_active := true } := by
      simp [alertForMeasurement, stationB, mkMeasurement, haqi,
        AQI_THRESHOLD_moderate, AQI_THRESHOLD_unhealthy]
    simp [alert_execute, hwin, halert]
  · have hwin : get_recent_measurements [stationB] 0 1 none = [stationB] := by decide
    have haqi : calculate_aqi 150 = 199 := by norm_num [calculate_aqi, pyInt]
    have halert : alertForMeasurement stationB = some
        { location_name := "Station-B", latitude := 0, longitude := 0,
          alert_type := "high_aqi", severity := "warning", value := 150,
          threshold := 100, is_active := true } := by
      simp [alertForMeasurement, stationB, mkMeasurement, haqi,
        AQI_THRESHOLD_moderate, AQI_THRESHOLD_unhealthy]
    simp [alert_execute, hwin, halert]
  · intro m p hp hp0 h100
    simp [alertForMeasurement, hp, hp0, h100]
  · intro m p hp hp0 h100
    simp [alertForMeasurement, hp, hp0, not_lt.mpr h100]

/-- C2 witness: the amended alert rule applied to the "Station-B" reading
with PM2.5 = 150. -/
theorem c2_alert_thresholds_amended_witness :
    stationB.pm25 = some 150 ∧ (150 : ℚ) ≠ 0 ∧
    calculate_aqi 150 > AQI_THRESHOLD_moderate ∧
    alertForMeasurement stationB = some
      { location_name := "Station-B", latitude := 0, longitude := 0,
        alert_type := "high_aqi", severity := "warning", value := 150,
        threshold := 100, is_active := true } := by
  have hp : stationB.pm25 = some 150 := rfl
  have hp0 : (150 : ℚ) ≠ 0 := by norm_num
  have haqi : calculate_aqi 150 = 199 := by norm_num [calculate_aqi, pyInt]
  have h100 : calculate_aqi 150 > AQI_THRESHOLD_moderate := by
    rw [haqi]
    decide
  have h := c2_alert_thresholds_amended.2.1 stationB 150 hp hp0 h100
  refine ⟨hp, hp0, h100, ?_⟩
  rw [h]
  simp [stationB, mkMeasurement, haqi, AQI_THRESHOLD_moderate, AQI_THRESHOLD_unhealthy]

/-- C1: evaluation of the code at the specification's scenario — 20
hourly "Station-A" readings rising by 2 µg/m³ per hour.  The store query
returns the window newest-first and the engines never re-sort it, so the
least-squares fit sees the series reversed: the forecast task predicts
PM2.5 = 0 (the extrapolated -38 clipped at 0), strictly below the last
observed value 48, and the analysis task classifies the trend
"decreasing" — the claimed behavior (prediction above 48, trend
"increasing") is what the chronological order would give. -/
theorem c1_reversed_series_evaluation :
    (forecaster_execute stationA_store 0).2.map
        (fun r => (r.location_name, r.predicted_pm25)) = [("Station-A", 0)] ∧
    (get_recent_measurements stationA_store 0 48 none).head?.bind (fun m => m.pm25) =
      some 48 ∧
    (analyzer_execute stationA_store 0 none).2.map
        (fun r => (r.location, r.pm25_trend)) = [("Station-A", "decreasing")] := by
  have hwin48 : get_recent_measurements stationA_store 0 48 none = stationA_window := by
    decide
  have hwin168 : get_recent_measurements stationA_store 0 168 none = stationA_window := by
    decide
  have hgroup : groupLocations stationA_window = ["Station-A"] := by decide
  have hseries : pm25Series stationA_window "Station-A" = stationA_series := by decide
  have hapm : analyzerPm25 stationA_window "Station-A" = stationA_series := by decide
  have hlenS : stationA_series.length = 20 := by decide
  have hsX : sumX 20 = 190 := by norm_num [sumX, Finset.sum_range_succ]
  have hsXX : sumXX 20 = 2470 := by norm_num [sumXX, Finset.sum_range_succ]
  have hsY : sumY stationA_series = 580 := by
    norm_num [stationA_series, sumY_cons, sumY_nil]
  have hsXY : sumXY stationA_series = 4180 := by
    norm_num [stationA_series, sumY_cons, sumY_nil, sumXY_cons, sumXY_nil]
  have hslope : olsSlope stationA_series = -2 := by
    unfold olsSlope
    rw [hlenS, hsY, hsXY, hsX, hsXX]
    norm_num
  have hint : olsIntercept stationA_series = 48 := by
    unfold olsIntercept
    rw [hlenS, hsY, hslope, hsX]
    norm_num
  have hpred : predictedPm25 stationA_series = 0 := by
    unfold predictedPm25 olsPredict
    rw [hlenS, hint, hslope]
    norm_num [clip500, max_def, min_def]
  have htrend : analyze_trend stationA_series = "decreasing" := by
    have hlen2 : ¬stationA_series.length < 2 := by decide
    simp only [analyze_trend, if_neg hlen2, hslope]
    norm_num
  refine ⟨?_, ?_, ?_⟩
  · have hlen10 : ¬stationA_window.length < 10 := by decide
    have hlen5 : ¬stationA_series.length < 5 := by decide
    simp [forecaster_execute, hwin48, hlen10, hgroup, hseries, hlen5, hpred]
  · rw [hwin48]
    rfl
  · have hne : stationA_window.isEmpty = false := by decide
    have hnonempty : stationA_series ≠ [] := by decide
    simp [analyzer_execute, hwin168, applyLocationFilter, hne, hgroup, analysisFor,
      hapm, htrend, hnonempty]
